import Mathlib

/-!
# SoundPad — verification of the audio playback / resource-lifecycle engine

Shallow embedding of the SoundPad repository (`src/components/audio-provider.tsx`,
`src/components/audio-edit-modal.tsx`, `src/scripts/update-meditation-pads`) in
Lean 4, together with theorems settling the frozen specification claims.

Modelling conventions:
* JavaScript numbers are modelled as `ℚ` (exact rational arithmetic); every
  numeric literal of the source (`0.005`, `0.1`, `0.6`, …) appears as the
  corresponding rational.  Counters are `ℤ` so that non-negativity is a real
  property.
* JavaScript objects used as string-keyed dictionaries (`audioData`,
  `audioInstancesRefs.current`, …) are association lists `List (String × α)`
  with insertion-order-preserving update, matching JS object key iteration.
* `HTMLAudioElement`s have identity: they live in a heap
  `List (ℕ × AudioElem)` keyed by an allocation id, and the per-slot instance
  lists store element ids, so that pushing the same (cached) element twice and
  `indexOf`-based removal behave exactly as in the source.
* `undefined`-able TS fields are `Option`; JS truthiness (`x || d`,
  `if (x)`) is modelled explicitly (`0`, `""`, `undefined`, `false` are falsy).
* Browser effects with no engine-visible state (AudioNode `disconnect`,
  `URL.revokeObjectURL`, logging) do not appear in the state.
-/

namespace SoundPad

/-! ## Association-list helpers (JS object dictionaries) -/

/-- Lookup in a JS-object-as-dictionary. -/
def alookup {α : Type} (l : List (String × α)) (k : String) : Option α :=
  match l.find? (fun p => p.1 == k) with
  | some p => some p.2
  | none => none

/-- `obj[k] = v`: replace in place if the key exists, else append
(JS objects keep first-insertion key order). -/
def aset {α : Type} (l : List (String × α)) (k : String) (v : α) : List (String × α) :=
  match l with
  | [] => [(k, v)]
  | p :: rest => if p.1 == k then (k, v) :: rest else p :: aset rest k v

/-- `delete obj[k]`. -/
def adel {α : Type} (l : List (String × α)) (k : String) : List (String × α) :=
  match l with
  | [] => []
  | p :: rest => if p.1 == k then rest else p :: adel rest k

/-- `alookup` for ℕ-keyed association lists (the element heap). -/
def alookupN {α : Type} (l : List (ℕ × α)) (k : ℕ) : Option α :=
  match l.find? (fun p => p.1 == k) with
  | some p => some p.2
  | none => none

/-! ## Audio codec (`audio-edit-modal.tsx`)

`trimSilence` (lines 62–126) decodes a blob to an `AudioBuffer` and trims
leading silence; `bufferToWav` (lines 128–167) encodes an `AudioBuffer` as a
44-byte-header PCM WAV byte sequence.  We embed the buffer-level transforms;
a buffer is a list of channels of rational samples plus a sample rate
(real `AudioBuffer`s have equal-length, zero-initialised channels). -/

structure AudioBuffer where
  channels : List (List ℚ)
  sampleRate : ℕ
deriving DecidableEq, Repr

namespace AudioBuffer

/-- `buffer.numberOfChannels` -/
def numberOfChannels (b : AudioBuffer) : ℕ := b.channels.length

/-- `buffer.length` (frame count; channels of an `AudioBuffer` share it,
we read it off channel 0 as `trimSilence` does via `getChannelData(0)`). -/
def frameCount (b : AudioBuffer) : ℕ := (b.channels.headD []).length

/-- `buffer.getChannelData(ch)` -/
def channelData (b : AudioBuffer) (ch : ℕ) : List ℚ := b.channels.getD ch []

/-- `getChannelData(ch)[i]` (a `Float32Array` read; in-range in the source). -/
def sampleAt (b : AudioBuffer) (ch i : ℕ) : ℚ := (b.channelData ch).getD i 0

end AudioBuffer

/-- `trimSilence` lines 76–83: scan channel 0 for the first sample whose
magnitude exceeds the threshold `0.005`; `startSample` stays `0` when no such
sample exists (the loop cannot distinguish "found at index 0" from
"none found"). -/
def detectedStart (b : AudioBuffer) : ℕ :=
  ((b.channelData 0).findIdx? (fun x => decide ((5 : ℚ)/1000 < |x|))).getD 0

/-- `trimSilence` lines 85–88: if `startSample === 0` and the buffer is longer
than 100 ms, force a 100 ms artifact trim (`Math.floor(sampleRate * 0.1)`). -/
def computedStart (b : AudioBuffer) : ℕ :=
  let s0 := detectedStart b
  if s0 = 0 ∧ (b.sampleRate : ℚ) * (1/10) < (b.frameCount : ℚ) then
    (⌊(b.sampleRate : ℚ) * (1/10)⌋).toNat
  else s0

/-- Buffer-level embedding of `trimSilence` (lines 62–126).  If the computed
trim point is under 50 ms (`startSample < sampleRate * 0.05`) the input is
returned unchanged; otherwise each channel is rebuilt as
`trimmedData[i] = originalData[i + startSample]` for
`i < length - startSample`.  The decode/encode round trip around the buffer
transform (and the decode-failure path, which returns the input) are external
to the buffer-level algorithm. -/
def trimSilence (b : AudioBuffer) : AudioBuffer :=
  let start := computedStart b
  if (start : ℚ) < (b.sampleRate : ℚ) * (1/20) then b
  else
    let trimmedLength := b.frameCount - start
    { channels :=
        b.channels.map (fun c => (List.range trimmedLength).map (fun i => c.getD (i + start) 0)),
      sampleRate := b.sampleRate }

/-! ### PCM16 WAV encoder (`bufferToWav`, lines 128–167) -/

/-- `DataView.setUint16(_, v, true)`: two little-endian bytes of `v mod 2^16`. -/
def u16le (v : ℕ) : List ℕ := [v % 256, v / 256 % 256]

/-- `DataView.setUint32(_, v, true)`: four little-endian bytes of `v mod 2^32`. -/
def u32le (v : ℕ) : List ℕ := [v % 256, v / 256 % 256, v / 65536 % 256, v / 16777216 % 256]

/-- ECMAScript `ToIntegerOrInfinity`: truncation of a rational toward zero
(the conversion `DataView.setInt16` applies before wrapping). -/
def jsTrunc (q : ℚ) : ℤ := if 0 ≤ q then ⌊q⌋ else -⌊-q⌋

/-- `DataView.setInt16(_, v, true)`: the two little-endian bytes of the
16-bit two's-complement representation. -/
def i16le (v : ℤ) : List ℕ := u16le (v % 65536).toNat

/-- Lines 160–161: clamp a float sample to `[-1, 1]` and scale by
`0x7fff = 32767`, as stored by `setInt16`. -/
def pcm16OfSample (s : ℚ) : ℤ := jsTrunc (max (-1) (min 1 s) * 32767)

/-- `bufferToWav` (lines 128–167): 44-byte RIFF/WAVE header followed by the
interleaved 16-bit samples (frame-major, channel-minor), all little-endian.
The byte list mirrors the `setUint8/16/32` writes at offsets 0..43. -/
def bufferToWav (b : AudioBuffer) : List ℕ :=
  let length := b.frameCount
  let numberOfChannels := b.numberOfChannels
  let sampleRate := b.sampleRate
  -- "RIFF", chunk size, "WAVE", "fmt ", 16, 1 (PCM)
  [82, 73, 70, 70] ++ u32le (36 + length * numberOfChannels * 2) ++
  [87, 65, 86, 69] ++ [102, 109, 116, 32] ++ u32le 16 ++ u16le 1 ++
  -- channel count, sample rate, byte rate, block align, bit depth 16, "data", data length
  u16le numberOfChannels ++ u32le sampleRate ++ u32le (sampleRate * numberOfChannels * 2) ++
  u16le (numberOfChannels * 2) ++ u16le 16 ++ [100, 97, 116, 97] ++
  u32le (length * numberOfChannels * 2) ++
  (List.range length).flatMap (fun i =>
    (List.range numberOfChannels).flatMap (fun channel =>
      i16le (pcm16OfSample (b.sampleAt channel i))))

/-- Little-endian unsigned 16-bit read at byte offset `off`. -/
def readU16LE (bytes : List ℕ) (off : ℕ) : ℕ :=
  match bytes.drop off with
  | b0 :: b1 :: _ => b0 + 256 * b1
  | _ => 0

/-- Little-endian unsigned 32-bit read at byte offset `off`. -/
def readU32LE (bytes : List ℕ) (off : ℕ) : ℕ :=
  match bytes.drop off with
  | b0 :: b1 :: b2 :: b3 :: _ => b0 + 256 * (b1 + 256 * (b2 + 256 * b3))
  | _ => 0

/-- Little-endian signed 16-bit (two's complement) read at byte offset `off`. -/
def readI16LE (bytes : List ℕ) (off : ℕ) : ℤ :=
  let u := readU16LE bytes off
  if u < 32768 then (u : ℤ) else (u : ℤ) - 65536

/-! ## Engine data model (`audio-provider.tsx`)

The React component's state (`useState`) and refs (`useRef`) are collected in
one `EngineState` record; each handler of the source becomes a state
transformer.  Blobs and object URLs are opaque tokens. -/

/-- An opaque `Blob` (identified audio payload). -/
structure Blob where
  tok : ℕ
deriving DecidableEq, Repr

/-- `interface AudioData` (lines 8–19). -/
structure AudioData where
  id : String
  name : String
  audioBlob : Option Blob
  speed : ℚ
  balance : ℚ
  echoDelay : Option ℚ
  echoFeedback : Option ℚ
  volume : Option ℚ
  color : Option String
  loop : Option Bool
deriving DecidableEq, Repr

/-- `Partial<AudioData>` as observable by this code: every field optional.
The source only ever tests fields with `!== undefined` (or truthiness), so an
explicitly-`undefined` field and an absent field are indistinguishable and
both map to `none`. -/
structure PartialAudioData where
  name : Option String := none
  speed : Option ℚ := none
  balance : Option ℚ := none
  echoDelay : Option ℚ := none
  echoFeedback : Option ℚ := none
  volume : Option ℚ := none
  color : Option String := none
  loop : Option Bool := none
  audioBlob : Option Blob := none
deriving DecidableEq, Repr

/-- JS `x || d` for an optional number (`undefined` and `0` are falsy). -/
def numOr (o : Option ℚ) (d : ℚ) : ℚ :=
  match o with
  | some v => if v = 0 then d else v
  | none => d

/-- JS truthiness of an optional boolean (`data.loop`). -/
def boolTruthy (o : Option Bool) : Bool :=
  match o with
  | some b => b
  | none => false

/-- JS `x || d` for an optional string (`""` is falsy). -/
def strOr (o : Option String) (d : String) : String :=
  match o with
  | some s => if s = "" then d else s
  | none => d

/-- `AudioContextState` of the shared Web Audio context. -/
inductive CtxState
  | running
  | suspended
  | closed
deriving DecidableEq, Repr

/-- The `onended` handler installed on an element: echo-path handler
(lines 497–514), main-path handler (lines 581–597), or none. -/
inductive EndedHandler
  | noHandler
  | echoEnded (slotId : String)
  | mainEnded (slotId : String)
deriving DecidableEq, Repr

/-- One `HTMLAudioElement`.  `srcUrl` is the object-URL token passed to
`new Audio(url)` (always a `blob:` URL in this code). -/
structure AudioElem where
  srcUrl : ℕ
  paused : Bool
  currentTime : ℚ
  playbackRate : ℚ
  volume : ℚ
  loop : Bool
  sinkId : String
  onended : EndedHandler
deriving DecidableEq, Repr

/-- One entry of `audioNodesRef.current[id]`: a `source → pan → gain` chain.
`mediaElemId` is the identity of `source.mediaElement`, which
`cleanupAudioNodes` matches against. -/
structure NodeSet where
  mediaElemId : ℕ
  pan : ℚ
  gain : ℚ
deriving DecidableEq, Repr

/-- `resourceCountRef.current` (line 147). -/
structure Counters where
  audioElements : ℤ
  audioNodes : ℤ
  objectUrls : ℤ
deriving DecidableEq, Repr

/-- The engine state: React state + refs of `AudioProvider`. -/
structure EngineState where
  /-- `audioData` state (slot id → parameters). -/
  audioData : List (String × AudioData)
  /-- `isPlaying` state (slot id → playing flag). -/
  isPlaying : List (String × Bool)
  /-- `buttonOrder` state. -/
  buttonOrder : List String
  /-- `outputDeviceId` state. -/
  outputDeviceId : String
  /-- `audioInstancesRefs.current`: slot id → list of live element ids. -/
  audioInstancesRefs : List (String × List ℕ)
  /-- `audioNodesRef.current`: slot id → list of node sets. -/
  audioNodesRef : List (String × List NodeSet)
  /-- `cachedAudioRef.current`: slot id → (element id, object URL token). -/
  cachedAudioRef : List (String × ℕ × ℕ)
  /-- `audioContextRef.current`. -/
  audioCtx : Option CtxState
  /-- `resourceCountRef.current`. -/
  counters : Counters
  /-- Heap of allocated `HTMLAudioElement`s, by allocation id. -/
  elems : List (ℕ × AudioElem)
  /-- Allocator for element ids. -/
  nextElemId : ℕ
  /-- Allocator for `URL.createObjectURL` tokens. -/
  nextUrl : ℕ
  /-- `setTimeout(() => echoAudio.play(), delay)` callbacks still pending:
  (element id, delay in ms). -/
  pendingPlays : List (ℕ × ℚ)
deriving DecidableEq, Repr

namespace EngineState

/-- The instance list of a slot (`audioInstancesRefs.current[id]`, `[]` when
the key is absent, as produced by the `if (!...) ... = []` initialisers). -/
def instancesOf (s : EngineState) (id : String) : List ℕ :=
  (alookup s.audioInstancesRefs id).getD []

/-- The node-set list of a slot. -/
def nodesOf (s : EngineState) (id : String) : List NodeSet :=
  (alookup s.audioNodesRef id).getD []

/-- `isPlaying[id]` (absent key reads as `undefined`, falsy). -/
def playingOf (s : EngineState) (id : String) : Bool :=
  (alookup s.isPlaying id).getD false

/-- Read an element of the heap (total: a dummy element for dangling ids). -/
def elemOf (s : EngineState) (eid : ℕ) : AudioElem :=
  (alookupN s.elems eid).getD
    { srcUrl := 0, paused := true, currentTime := 0, playbackRate := 1, volume := 1,
      loop := false, sinkId := "", onended := .noHandler }

/-- Update one heap element in place. -/
def updateElem (s : EngineState) (eid : ℕ) (f : AudioElem → AudioElem) : EngineState :=
  { s with elems := s.elems.map (fun p => if p.1 = eid then (p.1, f p.2) else p) }

end EngineState

/-- Environment of one `playAudio` call: outcomes of the awaited browser
operations (context creation/resume, `play()`, sink binding). -/
structure Env where
  ctxCreateOk : Bool := true
  newCtxState : CtxState := .running
  resumeWorks : Bool := true
  playWorks : Bool := true
  retryWorks : Bool := true
  sinkWorks : Bool := true
deriving DecidableEq, Repr

/-- `audio.pause(); audio.currentTime = 0` on the element heap. -/
def pauseRewindHeap (elems : List (ℕ × AudioElem)) (eid : ℕ) : List (ℕ × AudioElem) :=
  elems.map (fun p => if p.1 = eid then (p.1, { p.2 with paused := true, currentTime := 0 }) else p)

/-- `audio.pause(); audio.currentTime = 0`. -/
def pauseRewind (s : EngineState) (eid : ℕ) : EngineState :=
  { s with elems := pauseRewindHeap s.elems eid }

/-- `cleanupAudioNodes` (lines 348–373): find the node set whose
`source.mediaElement` is this element, disconnect it, remove it, and floor-
decrement the node counter. -/
def cleanupAudioNodes (s : EngineState) (id : String) (eid : ℕ) : EngineState :=
  match alookup s.audioNodesRef id with
  | none => s
  | some nodes =>
    match nodes.findIdx? (fun ns => ns.mediaElemId == eid) with
    | none => s
    | some idx =>
      { s with audioNodesRef := aset s.audioNodesRef id (nodes.eraseIdx idx),
               counters := { s.counters with audioNodes := max 0 (s.counters.audioNodes - 1) } }

/-- Teardown of one evicted instance inside `limitAudioInstances`
(lines 380–388): pause, drop its node set, revoke its (always `blob:`) URL and
floor-decrement both counters. -/
def teardownInstance (id : String) (s : EngineState) (eid : ℕ) : EngineState :=
  let s := s.updateElem eid (fun e => { e with paused := true })
  let s := cleanupAudioNodes s id eid
  { s with counters :=
      { s.counters with
        objectUrls := max 0 (s.counters.objectUrls - 1),
        audioElements := max 0 (s.counters.audioElements - 1) } }

/-- `limitAudioInstances` (lines 375–390): when the slot holds at least
`maxInstances` live instances, evict the oldest
`length - maxInstances + 1` of them. -/
def limitAudioInstances (s : EngineState) (id : String) (maxInstances : ℕ := 8) : EngineState :=
  match alookup s.audioInstancesRefs id with
  | none => s
  | some instances =>
    if maxInstances ≤ instances.length then
      let removeCount := instances.length - maxInstances + 1
      let s := { s with audioInstancesRefs := aset s.audioInstancesRefs id (instances.drop removeCount) }
      (instances.take removeCount).foldl (teardownInstance id) s
    else s

/-- `forceCleanupAllAudio` (lines 180–225): pause/rewind every cached and
per-slot instance, clear the cache and every instance/node list, reset the
playing map and zero the counters. -/
def forceCleanupAllAudio (s : EngineState) : EngineState :=
  -- the two loops only pause/rewind elements (node disconnects and URL
  -- revocations are external effects); the list fields are then reassigned
  let elems1 := s.cachedAudioRef.foldl (fun es p => pauseRewindHeap es p.2.1) s.elems
  let elems2 := s.audioInstancesRefs.foldl (fun es p => p.2.foldl pauseRewindHeap es) elems1
  { s with
    elems := elems2,
    cachedAudioRef := [],
    audioInstancesRefs :=
      s.audioInstancesRefs.map (fun (p : String × List ℕ) => (p.1, ([] : List ℕ))),
    audioNodesRef :=
      s.audioNodesRef.map (fun (p : String × List NodeSet) => (p.1, ([] : List NodeSet))),
    isPlaying := [],
    counters := { audioElements := 0, audioNodes := 0, objectUrls := 0 } }

/-- `performPeriodicCleanup` (lines 150–178): recompute element/node counts
from the authoritative lists, force a cleanup above the 50/50 thresholds, and
drop a closed context reference. -/
def performPeriodicCleanup (s : EngineState) : EngineState :=
  let totalAudioElements := (s.audioInstancesRefs.map (fun (p : String × List ℕ) => p.2.length)).sum
  let totalAudioNodes := (s.audioNodesRef.map (fun (p : String × List NodeSet) => p.2.length)).sum
  let s := { s with counters :=
    { audioElements := (totalAudioElements : ℤ),
      audioNodes := (totalAudioNodes : ℤ),
      objectUrls := s.counters.objectUrls } }
  let s := if 50 < totalAudioElements ∨ 50 < totalAudioNodes then forceCleanupAllAudio s else s
  if s.audioCtx = some CtxState.closed then { s with audioCtx := none } else s

/-- The merge of `updateAudioData` (lines 322–345): `!== undefined` tests for
explicitly-set fields, `||`-defaulting (hence falsy-value fallbacks) against
the previous slot record. -/
def mergeAudioData (prev : Option AudioData) (id : String) (p : PartialAudioData) : AudioData :=
  { id := id
    name := strOr p.name (strOr (prev.map (·.name)) ("Pad " ++ id))
    speed := match p.speed with
      | some v => v
      | none => numOr (prev.map (·.speed)) 1
    balance := match p.balance with
      | some v => v
      | none => numOr (prev.map (·.balance)) 0
    echoDelay := some (match p.echoDelay with
      | some v => v
      | none => (prev.bind (·.echoDelay)).getD (1/10))
    echoFeedback := some (match p.echoFeedback with
      | some v => v
      | none => numOr (prev.bind (·.echoFeedback)) 0)
    volume := some (match p.volume with
      | some v => v
      | none => numOr (prev.bind (·.volume)) (3/4))
    color := match p.color with
      | some c => some c
      | none => prev.bind (·.color)
    loop := match p.loop with
      | some b => some b
      | none => prev.bind (·.loop)
    audioBlob := match p.audioBlob with
      | some b => some b
      | none => prev.bind (·.audioBlob) }

/-- `updateAudioData` (lines 310–346): tear down the slot's cached instance,
then merge the partial into the previous record. -/
def updateAudioData (s : EngineState) (id : String) (p : PartialAudioData) : EngineState :=
  let s :=
    match alookup s.cachedAudioRef id with
    | some (eid, _url) =>
      let s := s.updateElem eid (fun e => { e with paused := true })
      { s with cachedAudioRef := adel s.cachedAudioRef id }
    | none => s
  { s with audioData := aset s.audioData id (mergeAudioData (alookup s.audioData id) id p) }

/-- `handleDelete` of the edit modal (`audio-edit-modal.tsx` lines 281–294):
reset every field to its default — `audioBlob: undefined` being the attempt to
clear the clip. -/
def handleDelete (s : EngineState) (padId : String) : EngineState :=
  updateAudioData s padId
    { name := some ("Pad " ++ padId), speed := some 1, balance := some 0,
      echoDelay := some 0, echoFeedback := some 0, volume := some 1,
      color := some "slate", loop := some false,
      audioBlob := none }

/-- `handleSave` of the edit modal (lines 266–279): a wholesale update of
every field from the modal state. -/
def handleSave (s : EngineState) (padId : String) (name : String) (speed balance echoDelay echoFeedback volume : ℚ) (color : String) (loop : Bool) (audioBlob : Option Blob) : EngineState :=
  updateAudioData s padId
    { name := some name, speed := some speed, balance := some balance,
      echoDelay := some echoDelay, echoFeedback := some echoFeedback,
      volume := some volume, color := some color, loop := some loop,
      audioBlob := audioBlob }

/-! ### `playAudio` (lines 392–613) -/

/-- Line 431: echo is enabled only when loop is off and both delay and
feedback are (truthily) positive. -/
def hasEchoData (d : AudioData) : Bool :=
  !boolTruthy d.loop && decide (0 < numOr d.echoDelay 0) && decide (0 < numOr d.echoFeedback 0)

/-- Lines 427–428: the effect graph is needed for non-zero balance, gain
above 1, or enabled echo parameters. -/
def needsWebAudioData (d : AudioData) : Bool :=
  decide (d.balance ≠ 0) || decide (1 < numOr d.volume 1) ||
    (decide (0 < numOr d.echoDelay 0) && decide (0 < numOr d.echoFeedback 0))

/-- Line 434: `Math.min(Math.floor(feedback * 6) + 3, 6)`. -/
def echoCountOf (d : AudioData) : ℤ :=
  min (⌊numOr d.echoFeedback 0 * 6⌋ + 3) 6

/-- Line 435: `Math.max(delay * 1000, 100)`. -/
def delayMsOf (d : AudioData) : ℚ :=
  max (numOr d.echoDelay 0 * 1000) 100

/-- Lines 446–453: gain of echo index `i` — the slot gain for `i = 0`, then
`(gain * 0.6) * pow(feedback || 0.5, i - 1)`. -/
def echoVolume (d : AudioData) (i : ℕ) : ℚ :=
  if i = 0 then numOr d.volume 1
  else numOr d.volume 1 * (6/10) * numOr d.echoFeedback (1/2) ^ (i - 1)

/-- One iteration of the echo loop (lines 437–515): allocate a fresh one-shot
element with its object URL, wire a pan→gain node set when the shared context
is running, register the instance, and schedule its deferred `play()` at
`i * delayMs`.  (The `onended` handler of line 497 is recorded on the
element.) -/
def echoIteration (d : AudioData) (env : Env) (id : String) (delayMs : ℚ) (s : EngineState) (i : ℕ) : EngineState :=
  let url := s.nextUrl
  let eid := s.nextElemId
  let volume := echoVolume d i
  let elem : AudioElem :=
    { srcUrl := url, paused := true, currentTime := 0,
      playbackRate := d.speed,
      volume := min volume 1,
      loop := false,
      sinkId := if s.outputDeviceId ≠ "" ∧ env.sinkWorks then s.outputDeviceId else "",
      onended := .echoEnded id }
  let s := { s with elems := s.elems ++ [(eid, elem)], nextElemId := eid + 1, nextUrl := url + 1,
                    counters := { s.counters with objectUrls := s.counters.objectUrls + 1 } }
  let s :=
    if s.audioCtx = some CtxState.running then
      { s with audioNodesRef := aset s.audioNodesRef id
                 (s.nodesOf id ++ [{ mediaElemId := eid, pan := d.balance,
                                     gain := if 1 < volume then volume else 1 }]),
               counters := { s.counters with audioNodes := s.counters.audioNodes + 1 } }
    else s
  let s := { s with audioInstancesRefs := aset s.audioInstancesRefs id (s.instancesOf id ++ [eid]),
                    counters := { s.counters with audioElements := s.counters.audioElements + 1 } }
  { s with pendingPlays := s.pendingPlays ++ [(eid, i * delayMs)] }

/-- The loop-toggle stop path of `playAudio` (lines 397–405): pause and
rewind the cached instance, mark not-playing. -/
def playStopPath (s : EngineState) (id : String) : EngineState :=
  let s :=
    match alookup s.cachedAudioRef id with
    | some (eid, _) => pauseRewind s eid
    | none => s
  { s with isPlaying := aset s.isPlaying id false }

/-- The echo path of `playAudio` (lines 433–519): run the echo loop and mark
the slot playing. -/
def playEchoPath (data : AudioData) (id : String) (env : Env) (s : EngineState) : EngineState :=
  let delayMs := delayMsOf data
  let s := (List.range (echoCountOf data + 1).toNat).foldl (echoIteration data env id delayMs) s
  { s with isPlaying := aset s.isPlaying id true }

/-- Lines 409–425 after a successful (or unnecessary) creation: store the
fresh context, then resume a suspended context best-effort. -/
def ensureAudioContext (env : Env) (s : EngineState) : EngineState :=
  let s := if s.audioCtx.isNone then { s with audioCtx := some env.newCtxState } else s
  if s.audioCtx = some CtxState.suspended ∧ env.resumeWorks
  then { s with audioCtx := some CtxState.running } else s

/-- `await audio.play()` with one resume-and-retry on failure
(lines 599–612): a success unpauses the element; on failure with a suspended
context, resume once and retry; further failures are only logged. -/
def tryPlayWithRetry (eid : ℕ) (env : Env) (s : EngineState) : EngineState :=
  if env.playWorks then s.updateElem eid (fun e => { e with paused := false })
  else if s.audioCtx = some CtxState.suspended then
    if env.resumeWorks then
      let s := { s with audioCtx := some CtxState.running }
      if env.retryWorks then s.updateElem eid (fun e => { e with paused := false }) else s
    else s
  else s

/-- The cached-default path of `playAudio` (lines 521–612): reuse the slot's
cached instance (rewound) or create and cache a fresh one, apply the slot
parameters and sink, wire the effect graph for a fresh instance under a
running context, register, mark playing, install the `onended` handler and
start playback with one resume-and-retry. -/
def playMainPath (data : AudioData) (id : String) (env : Env) (s : EngineState) : EngineState :=
  -- cached default instance: reuse (rewind) or create and cache (lines 521–534)
  let reused :=
    match alookup s.cachedAudioRef id with
    | some (eid, _url) =>
      (s.updateElem eid (fun e => { e with currentTime := 0 }), eid, false)
    | none =>
      let url := s.nextUrl
      let eid := s.nextElemId
      let elem : AudioElem :=
        { srcUrl := url, paused := true, currentTime := 0, playbackRate := 1, volume := 1,
          loop := false, sinkId := "", onended := .noHandler }
      ({ s with elems := s.elems ++ [(eid, elem)],
                cachedAudioRef := aset s.cachedAudioRef id (eid, url),
                nextElemId := eid + 1, nextUrl := url + 1,
                counters := { s.counters with objectUrls := s.counters.objectUrls + 1 } },
       eid, true)
  let s := reused.1
  let eid := reused.2.1
  let isNewAudio := reused.2.2
  -- apply parameters and the output sink (lines 536–541)
  let s := s.updateElem eid (fun e =>
    { e with playbackRate := data.speed,
             volume := min (numOr data.volume 1) 1,
             loop := boolTruthy data.loop,
             sinkId := if s.outputDeviceId ≠ "" ∧ env.sinkWorks then s.outputDeviceId else e.sinkId })
  -- effect graph for a freshly created instance with a running context (lines 543–568)
  let s :=
    if needsWebAudioData data ∧ isNewAudio ∧ s.audioCtx = some CtxState.running then
      { s with audioNodesRef := aset s.audioNodesRef id
                 (s.nodesOf id ++
                  [{ mediaElemId := eid, pan := data.balance,
                     gain := if 1 < numOr data.volume 1 then numOr data.volume 1 else 1 }]),
               counters := { s.counters with audioNodes := s.counters.audioNodes + 1 } }
    else s
  -- register the instance and mark the slot playing (lines 570–579)
  let s := { s with audioInstancesRefs := aset s.audioInstancesRefs id (s.instancesOf id ++ [eid]) }
  let s := if isNewAudio
           then { s with counters := { s.counters with audioElements := s.counters.audioElements + 1 } }
           else s
  let s := { s with isPlaying := aset s.isPlaying id true }
  -- install the `onended` handler (lines 581–597)
  let s := s.updateElem eid (fun e => { e with onended := .mainEnded id })
  -- `await audio.play()` with one resume-and-retry (lines 599–612)
  tryPlayWithRetry eid env s

/-- `playAudio` (lines 392–613). -/
def playAudio (s : EngineState) (id : String) (env : Env) : EngineState :=
  match alookup s.audioData id with
  | none => s
  | some data =>
  match data.audioBlob with
  | none => s
  | some _audioBlob =>
  -- loop-toggle stop path (lines 397–405)
  if boolTruthy data.loop ∧ s.playingOf id then
    playStopPath s id
  else
  let s := limitAudioInstances s id 8
  -- lazy AudioContext creation (lines 409–417); on a creation error: return
  if s.audioCtx.isNone ∧ ¬env.ctxCreateOk then s
  else
  -- store the created context, resume a suspended one (lines 409–425)
  let s := ensureAudioContext env s
  if hasEchoData data then playEchoPath data id env s
  else playMainPath data id env s

/-- An element's `onended` event fires (natural end of stream); dispatch to
the handler installed on it. -/
def fireEnded (s : EngineState) (eid : ℕ) : EngineState :=
  match (s.elemOf eid).onended with
  | .noHandler => s
  | .echoEnded id =>
    -- echo handler, lines 497–514
    let s := cleanupAudioNodes s id eid
    let s :=
      match alookup s.audioInstancesRefs id with
      | some instances =>
        match instances.findIdx? (fun x => x == eid) with
        | some idx =>
          let remaining := instances.eraseIdx idx
          let s := { s with audioInstancesRefs := aset s.audioInstancesRefs id remaining,
                            counters := { s.counters with
                              audioElements := max 0 (s.counters.audioElements - 1) } }
          if remaining.isEmpty then { s with isPlaying := aset s.isPlaying id false } else s
        | none =>
          if instances.isEmpty then { s with isPlaying := aset s.isPlaying id false } else s
      | none => s
    -- revoke the (always `blob:`) source URL
    { s with counters := { s.counters with objectUrls := max 0 (s.counters.objectUrls - 1) } }
  | .mainEnded id =>
    -- main-path handler, lines 581–597
    let s :=
      match alookup s.audioInstancesRefs id with
      | some instances =>
        let remaining :=
          match instances.findIdx? (fun x => x == eid) with
          | some idx => instances.eraseIdx idx
          | none => instances
        let s := { s with audioInstancesRefs := aset s.audioInstancesRefs id remaining }
        if remaining.isEmpty then { s with isPlaying := aset s.isPlaying id false } else s
      | none => s
    let s := { s with counters := { s.counters with objectUrls := max 0 (s.counters.objectUrls - 1) } }
    cleanupAudioNodes s id eid

/-- A scheduled echo `setTimeout` callback fires: `await echoAudio.play()`
(lines 489–495); a rejection is only logged. -/
def firePendingPlay (s : EngineState) (eid : ℕ) (env : Env) : EngineState :=
  match s.pendingPlays.findIdx? (fun p => p.1 == eid) with
  | none => s
  | some idx =>
    let s := { s with pendingPlays := s.pendingPlays.eraseIdx idx }
    if env.playWorks then s.updateElem eid (fun e => { e with paused := false }) else s

/-! ## Archive import (`importData`, lines 684–784)

The zip archive is a name→entry map; every entry has blob content and, for
text reads, a parsed-JSON view (`none` when `JSON.parse` would throw). -/

/-- A parsed JSON value. -/
inductive Json
  | null
  | bool (b : Bool)
  | num (q : ℚ)
  | str (s : String)
  | arr (xs : List Json)
  | obj (kvs : List (String × Json))

namespace Json

/-- JS `typeof x === "object"` on a parsed JSON value: `null`, arrays and
objects all have `typeof "object"`. -/
def typeofIsObject : Json → Bool
  | .null | .arr _ | .obj _ => true
  | _ => false

/-- JS truthiness of a JSON value. -/
def truthy : Json → Bool
  | .null => false
  | .bool b => b
  | .num q => decide (q ≠ 0)
  | .str s => decide (s ≠ "")
  | .arr _ => true
  | .obj _ => true

/-- JS property access `value[key]` as this code performs it: object key
lookup; on an array, a canonical numeric key indexes the array (the ids
`"1"`–`"36"` and `"_buttonOrder"`/field names are the only keys used). -/
def jsGet : Json → String → Option Json
  | .obj kvs, key => alookup kvs key
  | .arr xs, key => (key.toNat?).bind (fun n => xs.get? n)
  | _, _ => none

/-- The string value of a JSON value where the source expects a string.
(On non-string values JS would coerce when rendered; no claim depends on that
rendering, so non-strings read as `""`.) -/
def asString : Json → String
  | .str s => s
  | _ => ""

/-- The numeric value of a JSON value where the source expects a number.
(Ill-typed archive fields would flow through untyped in JS; they are read as
their default here, which no claim depends on.) -/
def asNum? : Json → Option ℚ
  | .num q => some q
  | _ => none

end Json

/-- One zip entry: its binary content and the parsed-JSON view of its text
(`none` = `JSON.parse` throws on it). -/
structure ZipEntry where
  content : Blob
  json : Option Json

/-- The selected import file: its name and the archive's entries. -/
structure ImportFile where
  name : String
  entries : List (String × ZipEntry)

/-- The distinct errors `importData` can throw before touching any state. -/
inductive ImportError
  | invalidFileType        -- "Invalid file type. Please select a .zip file."
  | settingsNotFound       -- "Invalid export file: settings.json not found"
  | jsonSyntaxError        -- `JSON.parse` SyntaxError
  | invalidSettingsFormat  -- "Invalid settings.json format"
deriving DecidableEq, Repr

/-- Lines 722–757: build one slot's record from `settings[id]`, or defaults
when the id is absent from the archive. -/
def importPad (settings : Json) (f : ImportFile) (id : String) : AudioData :=
  match Json.jsGet settings id with
  | some padSettings =>
    let blob :=
      if (Json.jsGet padSettings "hasAudio").elim false Json.truthy then
        match alookup f.entries ("pad-" ++ id ++ ".webm") with
        | some e => some e.content
        | none => none
      else none
    { id := id
      name := strOr ((Json.jsGet padSettings "name").map Json.asString) ("Pad " ++ id)
      speed := numOr ((Json.jsGet padSettings "speed").bind Json.asNum?) 1
      balance := numOr ((Json.jsGet padSettings "balance").bind Json.asNum?) 0
      echoDelay := some (((Json.jsGet padSettings "echoDelay").bind Json.asNum?).getD (1/10))
      echoFeedback := some (numOr ((Json.jsGet padSettings "echoFeedback").bind Json.asNum?) 0)
      volume := some (((Json.jsGet padSettings "volume").bind Json.asNum?).getD (3/4))
      color := (Json.jsGet padSettings "color").map Json.asString
      loop := (Json.jsGet padSettings "loop").map Json.truthy
      audioBlob := blob }
  | none =>
    { id := id, name := "Pad " ++ id, speed := 1, balance := 0,
      echoDelay := some (1/10), echoFeedback := some 0, volume := some (3/4),
      color := none, loop := none, audioBlob := none }

/-- `importData` (lines 684–784).  Validation happens before any state
mutation; on a throw the state is returned untouched together with the error.
On success the button order may be restored, all 36 slots are repopulated,
the cached instances are torn down and `audioData` is replaced. -/
def importData (s : EngineState) (f : ImportFile) : EngineState × Option ImportError :=
  if ¬f.name.endsWith ".zip" then (s, some .invalidFileType)
  else
    match alookup f.entries "settings.json" with
    | none => (s, some .settingsNotFound)
    | some entry =>
      match entry.json with
      | none => (s, some .jsonSyntaxError)
      | some settings =>
        if ¬(settings.truthy ∧ settings.typeofIsObject) then (s, some .invalidSettingsFormat)
        else
          -- restore button order (lines 708–710)
          let s :=
            match Json.jsGet settings "_buttonOrder" with
            | some (Json.arr xs) => { s with buttonOrder := xs.map Json.asString }
            | _ => s
          -- rebuild all 36 slots (lines 713–759)
          let newAudioData :=
            (List.range 36).map (fun i =>
              let id := toString (i + 1)
              (id, importPad settings f id))
          -- clear the cached audio before setting new data (lines 761–771)
          let elems := s.cachedAudioRef.foldl (fun es p => pauseRewindHeap es p.2.1) s.elems
          ({ s with elems := elems, cachedAudioRef := [], audioData := newAudioData }, none)

/-! ## Engine operations as a step relation -/

/-- One engine operation: the event-loop callbacks that can touch the engine
state. -/
inductive EngineOp
  | play (id : String) (env : Env)
  | ended (eid : ℕ)
  | pendingPlay (eid : ℕ) (env : Env)
  | periodic
  | force
  | update (id : String) (p : PartialAudioData)
  | importOp (f : ImportFile)

/-- Apply one operation. -/
def stepOp (s : EngineState) : EngineOp → EngineState
  | .play id env => playAudio s id env
  | .ended eid => fireEnded s eid
  | .pendingPlay eid env => firePendingPlay s eid env
  | .periodic => performPeriodicCleanup s
  | .force => forceCleanupAllAudio s
  | .update id p => updateAudioData s id p
  | .importOp f => (importData s f).1

/-- The resource ledger is non-negative. -/
def CountersNonneg (s : EngineState) : Prop :=
  0 ≤ s.counters.audioElements ∧ 0 ≤ s.counters.audioNodes ∧ 0 ≤ s.counters.objectUrls

instance (s : EngineState) : Decidable (CountersNonneg s) := by
  unfold CountersNonneg; infer_instance

/-! ## Concrete states used by the scenario theorems -/

/-- The engine state right after mount, before any persisted data is loaded:
empty maps, the identity button order, all counters zero. -/
def emptyEngine : EngineState :=
  { audioData := [], isPlaying := [],
    buttonOrder := (List.range 36).map (fun i => toString (i + 1)),
    outputDeviceId := "",
    audioInstancesRefs := [], audioNodesRef := [], cachedAudioRef := [],
    audioCtx := none,
    counters := { audioElements := 0, audioNodes := 0, objectUrls := 0 },
    elems := [], nextElemId := 0, nextUrl := 0, pendingPlays := [] }

/-- A slot with a clip and echo `delay=0.2s, feedback=0.8` (the echo sliders'
maximum feedback). -/
def echoMaxData : AudioData :=
  { id := "1", name := "Pad 1", audioBlob := some ⟨0⟩, speed := 1, balance := 0,
    echoDelay := some (1/5), echoFeedback := some (4/5), volume := some 1,
    color := none, loop := none }

/-- Engine state with `echoMaxData` stored in slot 1. -/
def echoMaxState : EngineState :=
  { emptyEngine with audioData := [("1", echoMaxData)] }

/-- The spec's §8 echo scenario slot: clip, `delay=0.2s`, `feedback=0.3`,
`gain=1.0`, `balance=0`. -/
def echoScenarioData : AudioData :=
  { id := "1", name := "Pad 1", audioBlob := some ⟨0⟩, speed := 1, balance := 0,
    echoDelay := some (1/5), echoFeedback := some (3/10), volume := some 1,
    color := none, loop := none }

/-- Engine state with `echoScenarioData` stored in slot 1. -/
def echoScenarioState : EngineState :=
  { emptyEngine with audioData := [("1", echoScenarioData)] }

/-- A slot with a clip and loop enabled (no echo). -/
def loopData : AudioData :=
  { id := "2", name := "Pad 2", audioBlob := some ⟨3⟩, speed := 1, balance := 0,
    echoDelay := some 0, echoFeedback := some 0, volume := some 1,
    color := none, loop := some true }

/-- Engine state with `loopData` stored in slot 2. -/
def loopState : EngineState :=
  { emptyEngine with audioData := [("2", loopData)] }

/-- All browser operations succeed, the created context starts out running. -/
def okEnv : Env := {}

/-- A slot whose stored gain is `0` (reachable: the volume slider starts at
`0`). -/
def volZeroData : AudioData :=
  { id := "2", name := "Quiet", audioBlob := none, speed := 1, balance := 0,
    echoDelay := some 0, echoFeedback := some 0, volume := some 0,
    color := none, loop := none }

/-! ## Claim theorems -/

/-- Helper: when the computed trim point is under 50 ms, `trimSilence`
returns its input unchanged (source lines 90–95). -/
theorem trimSilence_eq_of_lt (b : AudioBuffer)
    (h : (computedStart b : ℚ) < (b.sampleRate : ℚ) * (1/20)) :
    trimSilence b = b := by
  simp only [trimSilence]
  rw [if_pos h]

/-- C3, counterexample: a 300 ms all-silent buffer at 100 Hz is trimmed to
200 ms by the first pass and to 100 ms by the second: `trimSilence` applied to
its own output does not return it unchanged. -/
theorem trimSilence_not_idempotent :
    trimSilence (trimSilence { channels := [List.replicate 30 0], sampleRate := 100 }) ≠
      trimSilence { channels := [List.replicate 30 0], sampleRate := 100 } :=
  of_decide_eq_true (by with_unfolding_all rfl)

/-- C3, amended: `trimSilence` is idempotent only when the second pass
computes a trim point under 50 ms (in particular whenever the first pass
makes no change); in general the artifact-trim branch re-fires — any output
longer than 100 ms whose channel-0 scan again computes `startSample = 0`
(first sample loud, or entirely silent) is trimmed a further 100 ms. -/
theorem trimSilence_idempotent_of_second_pass_below_noop (b : AudioBuffer)
    (h : (computedStart (trimSilence b) : ℚ) < ((trimSilence b).sampleRate : ℚ) * (1/20)) :
    trimSilence (trimSilence b) = trimSilence b :=
  trimSilence_eq_of_lt (trimSilence b) h

/-- C3, witness: a clean one-sample buffer satisfies the hypothesis and is a
fixed point. -/
theorem trimSilence_idempotent_of_second_pass_below_noop_witness :
    trimSilence (trimSilence { channels := [[1]], sampleRate := 100 }) =
      trimSilence { channels := [[1]], sampleRate := 100 } :=
  trimSilence_idempotent_of_second_pass_below_noop
    { channels := [[1]], sampleRate := 100 }
    (of_decide_eq_true (by with_unfolding_all rfl))

/-- C2, counterexample: in the spec's echo scenario (`delay=0.2s`,
`feedback=0.3`, `gain=1`, `balance=0`) one trigger creates 5 instances, not
the claimed 4: the code's own formula gives
`echoCount = min(floor(0.3*6)+3, 6) = 4`, i.e. 5 total including the
original. -/
theorem echo_scenario_not_four_instances :
    ((playAudio echoScenarioState "1" okEnv).instancesOf "1").length ≠ 4 :=
  of_decide_eq_true (by with_unfolding_all rfl)

/-- C2, amended: the echo scenario produces 5 total instances
(`echo_count = min(floor(0.3*6)+3, 6) = 4` plus the original) with
per-instance volumes `[1, 0.6, 0.18, 0.054, 0.0162]` — the slot gain for
index 0, then `(gain*0.6)*feedback^(i-1)` — and scheduled fire offsets
`[0, 200, 400, 600, 800]` ms. -/
theorem echo_scenario_five_instances :
    ((playAudio echoScenarioState "1" okEnv).instancesOf "1").length = 5 ∧
    echoCountOf echoScenarioData = 4 ∧
    ((playAudio echoScenarioState "1" okEnv).instancesOf "1").map
        (fun e => ((playAudio echoScenarioState "1" okEnv).elemOf e).volume) =
      [1, 3/5, 9/50, 27/500, 81/5000] ∧
    ((playAudio echoScenarioState "1" okEnv).instancesOf "1").map
        (fun e => ((playAudio echoScenarioState "1" okEnv).elemOf e).volume) =
      (List.range 5).map (fun i => min (echoVolume echoScenarioData i) 1) ∧
    (playAudio echoScenarioState "1" okEnv).pendingPlays.map Prod.snd =
      [0, 200, 400, 600, 800] ∧
    (playAudio echoScenarioState "1" okEnv).pendingPlays.map Prod.snd =
      (List.range 5).map (fun i => (i : ℚ) * delayMsOf echoScenarioData) :=
  ⟨by with_unfolding_all rfl, by with_unfolding_all rfl, by with_unfolding_all rfl,
   by with_unfolding_all rfl, by with_unfolding_all rfl, by with_unfolding_all rfl⟩

/-- C4, code bug: deleting a slot passes `audioBlob: undefined`, but the
merge in `updateAudioData` tests `data.audioBlob !== undefined`, which an
explicit `undefined` fails — so the previous clip is retained while every
other field resets; and an absent field whose previous value is falsy does
not retain it (a stored gain of `0` resets to the `0.75` default). -/
theorem updateAudioData_delete_keeps_clip :
    alookup ((handleDelete { emptyEngine with audioData := [("1", echoScenarioData)] } "1").audioData) "1" =
      some { id := "1", name := "Pad 1", audioBlob := some ⟨0⟩, speed := 1, balance := 0,
             echoDelay := some 0, echoFeedback := some 0, volume := some 1,
             color := some "slate", loop := some false } ∧
    (alookup ((updateAudioData { emptyEngine with audioData := [("2", volZeroData)] } "2"
        { name := some "x" }).audioData) "2").map (fun d => d.volume) =
      some (some (3/4)) :=
  of_decide_eq_true (by with_unfolding_all rfl)

/-- C10, counterexample: an archive whose `settings.json` parses to a JSON
*array* — not an object — passes the `typeof settings !== "object"` check, so
`importData` does not throw and replaces `audioData` with 36 default slots. -/
theorem importData_array_settings_no_error :
    (importData emptyEngine
        { name := "sounds.zip",
          entries := [("settings.json", { content := ⟨0⟩, json := some (Json.arr []) })] }).2 = none ∧
    (importData emptyEngine
        { name := "sounds.zip",
          entries := [("settings.json", { content := ⟨0⟩, json := some (Json.arr []) })] }).1.audioData ≠
      emptyEngine.audioData :=
  ⟨of_decide_eq_true (by with_unfolding_all rfl),
   fun h => by
    have h36 : (importData emptyEngine
        { name := "sounds.zip",
          entries := [("settings.json", { content := ⟨0⟩, json := some (Json.arr []) })] }).1.audioData.length = 36 := by
      with_unfolding_all rfl
    rw [h] at h36
    exact absurd h36 (by with_unfolding_all decide)⟩

/-- C10, amended: `importData` fails atomically on validation — for a file
name not ending in `.zip`, a missing `settings.json` entry, an unparseable
`settings.json`, or one parsing to `null`, a boolean, a number or a string,
it throws the corresponding distinct error with the state untouched; the
`typeof`-object check however also admits JSON *arrays*, which import
without error. -/
theorem importData_validation_atomic (s : EngineState) (f : ImportFile) :
    (f.name.endsWith ".zip" = false → importData s f = (s, some .invalidFileType)) ∧
    (f.name.endsWith ".zip" = true → alookup f.entries "settings.json" = none →
      importData s f = (s, some .settingsNotFound)) ∧
    (∀ e, f.name.endsWith ".zip" = true → alookup f.entries "settings.json" = some e →
      e.json = none → importData s f = (s, some .jsonSyntaxError)) ∧
    (∀ e j, f.name.endsWith ".zip" = true → alookup f.entries "settings.json" = some e →
      e.json = some j → (j.truthy && j.typeofIsObject) = false →
      importData s f = (s, some .invalidSettingsFormat)) := by
  refine ⟨fun h1 => ?_, fun h1 h2 => ?_, fun e h1 h2 h3 => ?_, fun e j h1 h2 h3 h4 => ?_⟩
  · simp [importData, h1]
  · simp [importData, h1, h2]
  · simp [importData, h1, h2, h3]
  · simp only [Bool.and_eq_false_iff] at h4
    rcases h4 with h4 | h4 <;>
      simp [importData, h1, h2, h3, h4]

/-- C10, witness: a `.txt` file is rejected as an invalid file type with the
state unchanged. -/
theorem importData_validation_atomic_witness :
    importData emptyEngine { name := "sounds.txt", entries := [] } =
      (emptyEngine, some .invalidFileType) :=
  (importData_validation_atomic emptyEngine { name := "sounds.txt", entries := [] }).1
    (by with_unfolding_all rfl)

/-! ### Cleanup lemmas (C6, C9) -/

/-- A fold whose steps preserve a projection preserves it overall. -/
theorem foldl_preserves {σ α β : Type} (f : σ → α → σ) (g : σ → β)
    (h : ∀ t x, g (f t x) = g t) : ∀ (l : List α) (t : σ), g (l.foldl f t) = g t := by
  intro l
  induction l with
  | nil => intro t; rfl
  | cons x xs ih => intro t; rw [List.foldl_cons, ih, h]

/-- Folding the heap-level instance cleanup over lists that are all empty is
a no-op. -/
theorem foldl_instances_of_empty (l : List (String × List ℕ))
    (h : ∀ p ∈ l, p.2 = ([] : List ℕ)) (es : List (ℕ × AudioElem)) :
    l.foldl (fun es p => p.2.foldl pauseRewindHeap es) es = es := by
  induction l generalizing es with
  | nil => rfl
  | cons x xs ih =>
    rw [List.foldl_cons, h x (List.mem_cons_self x xs)]
    exact ih (fun p hp => h p (List.mem_cons_of_mem x hp)) es

/-- Clearing value lists is the identity on an entry list whose values are
already empty. -/
theorem map_nilify_of_empty {β : Type} (l : List (String × List β))
    (h : ∀ p ∈ l, p.2 = ([] : List β)) :
    l.map (fun p => (p.1, ([] : List β))) = l := by
  induction l with
  | nil => rfl
  | cons x xs ih =>
    have hx := h x (List.mem_cons_self x xs)
    cases x with
    | mk k v =>
      simp only [List.map_cons, List.cons.injEq]
      exact ⟨by simp [hx.symm], ih (fun p hp => h p (List.mem_cons_of_mem _ hp))⟩

/-- A state already in the post-cleanup shape is a fixed point of
`forceCleanupAllAudio`. -/
theorem forceCleanup_fixed (u : EngineState)
    (h1 : u.cachedAudioRef = [])
    (h2 : ∀ p ∈ u.audioInstancesRefs, p.2 = ([] : List ℕ))
    (h3 : ∀ p ∈ u.audioNodesRef, p.2 = ([] : List NodeSet))
    (h4 : u.isPlaying = [])
    (h5 : u.counters = { audioElements := 0, audioNodes := 0, objectUrls := 0 }) :
    forceCleanupAllAudio u = u := by
  obtain ⟨ad, ip, bo, od, air, anr, car, ctx, cnt, el, nei, nu, pp⟩ := u
  simp only at h1 h2 h3 h4 h5
  subst h1 h4 h5
  simp only [forceCleanupAllAudio, List.foldl_nil]
  rw [foldl_instances_of_empty _ h2, map_nilify_of_empty _ h2, map_nilify_of_empty _ h3]

/-- The instance lists of a force-cleaned state are all empty. -/
theorem forceCleanup_instances_empty (s : EngineState) :
    ∀ p ∈ (forceCleanupAllAudio s).audioInstancesRefs, p.2 = ([] : List ℕ) := by
  intro p hp
  simp only [forceCleanupAllAudio] at hp
  rcases List.mem_map.mp hp with ⟨q, _, rfl⟩
  rfl

/-- The node lists of a force-cleaned state are all empty. -/
theorem forceCleanup_nodes_empty (s : EngineState) :
    ∀ p ∈ (forceCleanupAllAudio s).audioNodesRef, p.2 = ([] : List NodeSet) := by
  intro p hp
  simp only [forceCleanupAllAudio] at hp
  rcases List.mem_map.mp hp with ⟨q, _, rfl⟩
  rfl

/-- C6: after `forceCleanupAllAudio` every per-slot instance list and
node-set list is empty, the cached-instance map, playing map and counters are
cleared, and a second invocation returns the very same state: forced cleanup
is idempotent. -/
theorem forceCleanup_clears_everything_and_idempotent (s : EngineState) :
    ((forceCleanupAllAudio s).audioInstancesRefs.all (fun p => p.2.isEmpty)) = true ∧
    ((forceCleanupAllAudio s).audioNodesRef.all (fun p => p.2.isEmpty)) = true ∧
    (forceCleanupAllAudio s).cachedAudioRef = [] ∧
    (forceCleanupAllAudio s).isPlaying = [] ∧
    (forceCleanupAllAudio s).counters = { audioElements := 0, audioNodes := 0, objectUrls := 0 } ∧
    forceCleanupAllAudio (forceCleanupAllAudio s) = forceCleanupAllAudio s := by
  refine ⟨?_, ?_, by rfl, by rfl, by rfl, ?_⟩
  · rw [List.all_eq_true]
    intro p hp
    rw [List.isEmpty_iff, forceCleanup_instances_empty s p hp]
  · rw [List.all_eq_true]
    intro p hp
    rw [List.isEmpty_iff, forceCleanup_nodes_empty s p hp]
  · exact forceCleanup_fixed _ (by rfl) (forceCleanup_instances_empty s)
      (forceCleanup_nodes_empty s) (by rfl) (by rfl)

/-- C9: forced cleanup and the periodic sweep never modify slot parameters or
layout — `audioData` and `buttonOrder` are exactly what they were before. -/
theorem cleanup_preserves_audioData_and_order (s : EngineState) :
    (forceCleanupAllAudio s).audioData = s.audioData ∧
    (forceCleanupAllAudio s).buttonOrder = s.buttonOrder ∧
    (performPeriodicCleanup s).audioData = s.audioData ∧
    (performPeriodicCleanup s).buttonOrder = s.buttonOrder := by
  have hfad : ∀ t : EngineState, (forceCleanupAllAudio t).audioData = t.audioData :=
    fun t => rfl
  have hfbo : ∀ t : EngineState, (forceCleanupAllAudio t).buttonOrder = t.buttonOrder :=
    fun t => rfl
  refine ⟨hfad s, hfbo s, ?_, ?_⟩
  · simp only [performPeriodicCleanup]
    split
    · split <;> simp [hfad]
    · split <;> simp [hfad]
  · simp only [performPeriodicCleanup]
    split
    · split <;> simp [hfbo]
    · split <;> simp [hfbo]

/-! ### Playback-path lemmas (C1, C5) -/

/-- Writing a key makes it readable. -/
theorem alookup_aset_self {α : Type} (l : List (String × α)) (k : String) (v : α) :
    alookup (aset l k v) k = some v := by
  induction l with
  | nil => simp [aset, alookup]
  | cons p rest ih =>
    by_cases h : p.1 = k
    · simp [aset, alookup, h]
    · simp only [aset, h, beq_iff_eq, if_false]
      simpa [alookup, h] using ih

/-- `cleanupAudioNodes` leaves the instance lists untouched. -/
theorem cleanupAudioNodes_air (s : EngineState) (id : String) (eid : ℕ) :
    (cleanupAudioNodes s id eid).audioInstancesRefs = s.audioInstancesRefs := by
  unfold cleanupAudioNodes
  split
  · rfl
  · split <;> rfl

/-- Evicting one instance (`limitAudioInstances` body) leaves the instance
lists untouched — the eviction list itself was spliced out beforehand. -/
theorem teardownInstance_air (id : String) (t : EngineState) (eid : ℕ) :
    (teardownInstance id t eid).audioInstancesRefs = t.audioInstancesRefs := by
  show (cleanupAudioNodes (t.updateElem eid (fun e => { e with paused := true })) id eid).audioInstancesRefs =
    t.audioInstancesRefs
  rw [cleanupAudioNodes_air]
  rfl

/-- After `limitAudioInstances` with the default cap 8, the slot holds
`min (previous length) 7` instances: untouched below the cap, evicted down to
7 (one free place) at or above it. -/
theorem limit_len (s : EngineState) (id : String) :
    ((limitAudioInstances s id 8).instancesOf id).length = min (s.instancesOf id).length 7 := by
  unfold limitAudioInstances
  split
  · rename_i h
    simp [EngineState.instancesOf, h]
  · rename_i instances h
    split
    · rename_i hlen
      rw [foldl_preserves _ (fun t => EngineState.instancesOf t id)
        (fun t x => by simp only [EngineState.instancesOf, teardownInstance_air])]
      simp only [EngineState.instancesOf, alookup_aset_self, Option.getD_some, h,
        List.length_drop]
      omega
    · rename_i hlen
      simp only [EngineState.instancesOf, h, Option.getD_some]
      omega

/-- Each echo-loop iteration registers exactly one new instance on the
slot. -/
theorem echoIteration_len (d : AudioData) (env : Env) (id : String) (dm : ℚ)
    (s : EngineState) (i : ℕ) :
    ((echoIteration d env id dm s i).instancesOf id).length = (s.instancesOf id).length + 1 := by
  unfold echoIteration
  by_cases hc : s.audioCtx = some CtxState.running <;>
    simp [EngineState.instancesOf, alookup_aset_self, EngineState.nodesOf, hc]

/-- A fold whose steps each add one instance adds the list's length. -/
theorem foldl_len {α : Type} (id : String) (f : EngineState → α → EngineState)
    (h : ∀ t x, ((f t x).instancesOf id).length = (t.instancesOf id).length + 1) :
    ∀ (l : List α) (t : EngineState),
      ((l.foldl f t).instancesOf id).length = (t.instancesOf id).length + l.length := by
  intro l
  induction l with
  | nil => intro t; rfl
  | cons x xs ih => intro t; rw [List.foldl_cons, ih, h, List.length_cons]; omega

/-- The echo path registers `echoCount + 1` fresh instances and marks the
slot playing. -/
theorem playEchoPath_len (d : AudioData) (id : String) (env : Env) (s : EngineState) :
    ((playEchoPath d id env s).instancesOf id).length =
      (s.instancesOf id).length + (echoCountOf d + 1).toNat := by
  unfold playEchoPath
  have := foldl_len id (echoIteration d env id (delayMsOf d)) (echoIteration_len d env id _)
    (List.range (echoCountOf d + 1).toNat) s
  simpa [EngineState.instancesOf] using this

/-- The echo path marks the slot playing. -/
theorem playEchoPath_playing (d : AudioData) (id : String) (env : Env) (s : EngineState) :
    (playEchoPath d id env s).playingOf id = true := by
  unfold playEchoPath
  simp [EngineState.playingOf, alookup_aset_self]

/-- `tryPlayWithRetry` only touches the element heap and the context. -/
theorem tryPlay_air (eid : ℕ) (env : Env) (s : EngineState) :
    (tryPlayWithRetry eid env s).audioInstancesRefs = s.audioInstancesRefs := by
  unfold tryPlayWithRetry
  split
  · rfl
  · split
    · split
      · split <;> rfl
      · rfl
    · rfl

/-- `tryPlayWithRetry` does not change the playing map. -/
theorem tryPlay_isPlaying (eid : ℕ) (env : Env) (s : EngineState) :
    (tryPlayWithRetry eid env s).isPlaying = s.isPlaying := by
  unfold tryPlayWithRetry
  split
  · rfl
  · split
    · split
      · split <;> rfl
      · rfl
    · rfl

/-- The cached-default path registers exactly one instance on the slot. -/
theorem playMainPath_len (d : AudioData) (id : String) (env : Env) (s : EngineState) :
    ((playMainPath d id env s).instancesOf id).length = (s.instancesOf id).length + 1 := by
  unfold playMainPath
  split <;>
    simp [EngineState.instancesOf, EngineState.updateElem, tryPlay_air,
      apply_ite EngineState.audioInstancesRefs, alookup_aset_self]

/-- The cached-default path marks the slot playing. -/
theorem playMainPath_playing (d : AudioData) (id : String) (env : Env) (s : EngineState) :
    (playMainPath d id env s).playingOf id = true := by
  unfold playMainPath
  split <;>
    simp [EngineState.playingOf, EngineState.updateElem, tryPlay_isPlaying,
      apply_ite EngineState.isPlaying, alookup_aset_self]

/-- The stop path leaves the instance lists untouched. -/
theorem playStopPath_air (s : EngineState) (id : String) :
    (playStopPath s id).audioInstancesRefs = s.audioInstancesRefs := by
  unfold playStopPath
  split <;> rfl

/-- Loop enabled suppresses the echo path. -/
theorem hasEcho_false_of_loop (d : AudioData) (h : boolTruthy d.loop = true) :
    hasEchoData d = false := by
  simp [hasEchoData, h]

/-- `echoCount + 1` is at most 7 (`echoCount = min(⌊feedback*6⌋+3, 6) ≤ 6`). -/
theorem echoCount_succ_le (d : AudioData) : (echoCountOf d + 1).toNat ≤ 7 := by
  unfold echoCountOf
  generalize ⌊numOr d.echoFeedback 0 * 6⌋ = x
  omega

/-- Context creation/resume leaves every slot's instance list untouched. -/
theorem ensureCtx_instancesOf (env : Env) (s : EngineState) (id : String) :
    (ensureAudioContext env s).instancesOf id = s.instancesOf id := by
  unfold ensureAudioContext
  split <;>
  · dsimp only
    split <;> rfl

/-- The stop path: playing flag cleared. -/
theorem playStopPath_playingOf (s : EngineState) (id : String) :
    (playStopPath s id).playingOf id = false := by
  unfold playStopPath
  split <;> simp [EngineState.playingOf, alookup_aset_self]

/-- The stop path touches no resource list, no counter and allocates
nothing. -/
theorem playStopPath_fields (s : EngineState) (id : String) :
    (playStopPath s id).audioNodesRef = s.audioNodesRef ∧
    (playStopPath s id).counters = s.counters ∧
    (playStopPath s id).cachedAudioRef = s.cachedAudioRef ∧
    (playStopPath s id).nextElemId = s.nextElemId := by
  unfold playStopPath
  split <;> exact ⟨rfl, rfl, rfl, rfl⟩

/-- Reading back a heap key after `pauseRewindHeap` sees the paused/rewound
element. -/
theorem alookupN_pauseRewindHeap (es : List (ℕ × AudioElem)) (k : ℕ) :
    alookupN (pauseRewindHeap es k) k =
      (alookupN es k).map (fun e => { e with paused := true, currentTime := 0 }) := by
  induction es with
  | nil => rfl
  | cons p rest ih =>
    by_cases h : p.1 = k
    · simp [pauseRewindHeap, alookupN, List.find?_cons_of_pos, h]
    · simp only [pauseRewindHeap, List.map_cons, if_neg h]
      simp only [alookupN, List.find?_cons_of_neg, h, beq_iff_eq, not_false_iff]
      simpa [pauseRewindHeap, alookupN] using ih

/-- `pauseRewind` pauses and rewinds the targeted element. -/
theorem pauseRewind_pauses (s : EngineState) (eid : ℕ) :
    ((pauseRewind s eid).elemOf eid).paused = true ∧
    ((pauseRewind s eid).elemOf eid).currentTime = 0 := by
  unfold pauseRewind EngineState.elemOf
  rw [show ({ s with elems := pauseRewindHeap s.elems eid } : EngineState).elems =
        pauseRewindHeap s.elems eid from rfl,
      alookupN_pauseRewindHeap]
  cases alookupN s.elems eid <;> simp

/-- The stop path pauses and rewinds the cached instance when one exists. -/
theorem playStopPath_pauses (s : EngineState) (id : String) (eid : ℕ) (url : ℕ)
    (h : alookup s.cachedAudioRef id = some (eid, url)) :
    ((playStopPath s id).elemOf eid).paused = true ∧
    ((playStopPath s id).elemOf eid).currentTime = 0 := by
  unfold playStopPath
  split
  · rename_i eid' url' heq
    rw [h] at heq
    cases heq
    exact pauseRewind_pauses s eid
  · rename_i heq
    rw [h] at heq
    cases heq

/-- C1, counterexample: two echo triggers (`feedback = 0.8`, hence 7
instances each) on slot 1 leave 14 live instances — the second call's
`limitAudioInstances` pass sees only 7 (below the cap) and then pushes 7
more, so the list exceeds the cap of 8 right after `playAudio` returns. -/
theorem playAudio_echo_exceeds_cap :
    8 < ((playAudio (playAudio echoMaxState "1" okEnv) "1" okEnv).instancesOf "1").length :=
  of_decide_eq_true (by with_unfolding_all rfl)

/-- C1, amended: after any `playAudio` call the slot's instance list has at
most `max (previous length) 14` entries — the echo path only evicts down to
`cap - 1 = 7` and then registers up to `echoCount + 1 ≤ 7` fresh instances —
and a call that does not take the echo path (loop slots, stop toggles, empty
slots, cached-default playback) keeps the list within
`max (previous length) 8`: the claimed cap of 8 holds off the echo path but
not on it. -/
theorem playAudio_instance_bound (s : EngineState) (id : String) (env : Env) :
    ((playAudio s id env).instancesOf id).length ≤ max (s.instancesOf id).length 14 ∧
    (∀ d, alookup s.audioData id = some d → hasEchoData d = false →
      ((playAudio s id env).instancesOf id).length ≤ max (s.instancesOf id).length 8) := by
  unfold playAudio
  split
  · exact ⟨le_max_left _ _, fun d _ _ => le_max_left _ _⟩
  · rename_i data hdata
    split
    · exact ⟨le_max_left _ _, fun d _ _ => le_max_left _ _⟩
    · rename_i b hblob
      split
      · -- stop toggle
        have hair : (playStopPath s id).instancesOf id = s.instancesOf id := by
          simp [EngineState.instancesOf, playStopPath_air]
        rw [hair]
        exact ⟨le_max_left _ _, fun d _ _ => le_max_left _ _⟩
      · rename_i hnostop
        have hlim := limit_len s id
        dsimp only
        split
        · -- context creation failed: return after the limiter
          rw [hlim]
          constructor
          · omega
          · intro d _ _; omega
        · by_cases hecho : hasEchoData data = true
          · rw [if_pos hecho, playEchoPath_len, ensureCtx_instancesOf, hlim]
            have hec := echoCount_succ_le data
            constructor
            · omega
            · intro d hd hde
              rw [hdata] at hd
              cases hd
              rw [hde] at hecho
              cases hecho
          · rw [if_neg hecho, playMainPath_len, ensureCtx_instancesOf, hlim]
            exact ⟨by omega, fun d _ _ => by omega⟩

/-- C1, witness: a non-echo trigger on the loop slot stays within the cap. -/
theorem playAudio_instance_bound_witness :
    ((playAudio loopState "2" okEnv).instancesOf "2").length ≤
      max ((loopState.instancesOf "2").length) 8 :=
  (playAudio_instance_bound loopState "2" okEnv).2 loopData
    (by with_unfolding_all rfl) (by with_unfolding_all rfl)

/-- C5: for a slot with a clip and loop enabled (echo therefore suppressed),
a `playAudio` call while not playing registers one instance (after the
limiter) and sets the playing flag; a call while playing clears the flag,
pauses and rewinds the cached instance, and changes no instance list, node
list, counter or cache entry and allocates nothing. -/
theorem playAudio_loop_toggle (s : EngineState) (id : String) (env : Env) (d : AudioData)
    (hd : alookup s.audioData id = some d) (hb : d.audioBlob.isSome = true)
    (hloop : boolTruthy d.loop = true) (hctx : env.ctxCreateOk = true) :
    (s.playingOf id = false →
      (playAudio s id env).playingOf id = true ∧
      ((playAudio s id env).instancesOf id).length = min (s.instancesOf id).length 7 + 1) ∧
    (s.playingOf id = true →
      (playAudio s id env).playingOf id = false ∧
      (playAudio s id env).audioInstancesRefs = s.audioInstancesRefs ∧
      (playAudio s id env).audioNodesRef = s.audioNodesRef ∧
      (playAudio s id env).counters = s.counters ∧
      (playAudio s id env).cachedAudioRef = s.cachedAudioRef ∧
      (playAudio s id env).nextElemId = s.nextElemId ∧
      (∀ eid url, alookup s.cachedAudioRef id = some (eid, url) →
        ((playAudio s id env).elemOf eid).paused = true ∧
        ((playAudio s id env).elemOf eid).currentTime = 0)) := by
  unfold playAudio
  split
  · rename_i heq
    rw [hd] at heq
    cases heq
  · rename_i data hdata
    rw [hd] at hdata
    cases hdata
    split
    · rename_i heq
      rw [heq] at hb
      cases hb
    · rename_i b hblob
      split
      · -- stop branch
        rename_i hstop
        constructor
        · intro hnp
          rw [hnp] at hstop
          exact absurd hstop.2 (by simp)
        · intro _
          obtain ⟨h1, h2, h3, h4⟩ := playStopPath_fields s id
          exact ⟨playStopPath_playingOf s id, playStopPath_air s id, h1, h2, h3, h4,
            fun eid url hcache => playStopPath_pauses s id eid url hcache⟩
      · rename_i hnostop
        constructor
        · intro _
          rw [if_neg (by simp [hctx])]
          rw [if_neg (by simp [hasEcho_false_of_loop d hloop])]
          refine ⟨playMainPath_playing _ _ _ _, ?_⟩
          rw [playMainPath_len, ensureCtx_instancesOf, limit_len]
        · intro hp
          exact absurd ⟨hloop, hp⟩ hnostop

/-- C5, witness: the loop slot of the demo state, triggered while idle,
starts playing with one registered instance. -/
theorem playAudio_loop_toggle_witness :
    (playAudio loopState "2" okEnv).playingOf "2" = true ∧
    ((playAudio loopState "2" okEnv).instancesOf "2").length =
      min ((loopState.instancesOf "2").length) 7 + 1 :=
  (playAudio_loop_toggle loopState "2" okEnv loopData
      (by with_unfolding_all rfl) (by with_unfolding_all rfl)
      (by with_unfolding_all rfl) (by with_unfolding_all rfl)).1
    (by with_unfolding_all rfl)

/-! ### Ledger non-negativity (C8) -/

/-- An invariant preserved by each fold step is preserved by the fold. -/
theorem foldl_inv {σ α : Type} (P : σ → Prop) (f : σ → α → σ)
    (h : ∀ t x, P t → P (f t x)) : ∀ (l : List α) (t : σ), P t → P (l.foldl f t) := by
  intro l
  induction l with
  | nil => intro t ht; exact ht
  | cons x xs ih => intro t ht; rw [List.foldl_cons]; exact ih _ (h t x ht)

/-- `cleanupAudioNodes` keeps the ledger non-negative (floored decrement). -/
theorem nonneg_cleanupAudioNodes (s : EngineState) (id : String) (eid : ℕ)
    (h : CountersNonneg s) : CountersNonneg (cleanupAudioNodes s id eid) := by
  unfold cleanupAudioNodes
  split
  · exact h
  · split
    · exact h
    · exact ⟨h.1, le_max_left 0 _, h.2.2⟩

/-- `teardownInstance` keeps the ledger non-negative. -/
theorem nonneg_teardownInstance (id : String) (t : EngineState) (eid : ℕ)
    (h : CountersNonneg t) : CountersNonneg (teardownInstance id t eid) := by
  have hc : CountersNonneg (cleanupAudioNodes (t.updateElem eid fun e => { e with paused := true }) id eid) :=
    nonneg_cleanupAudioNodes _ id eid h
  exact ⟨le_max_left 0 _, hc.2.1, le_max_left 0 _⟩

/-- `limitAudioInstances` keeps the ledger non-negative. -/
theorem nonneg_limit (s : EngineState) (id : String) (n : ℕ)
    (h : CountersNonneg s) : CountersNonneg (limitAudioInstances s id n) := by
  unfold limitAudioInstances
  split
  · exact h
  · split
    · exact foldl_inv CountersNonneg (teardownInstance id)
        (fun t x ht => nonneg_teardownInstance id t x ht) _ _ h
    · exact h

/-- The zeroed post-cleanup ledger is non-negative. -/
theorem nonneg_forceCleanup (s : EngineState) : CountersNonneg (forceCleanupAllAudio s) :=
  ⟨le_refl 0, le_refl 0, le_refl 0⟩

/-- The periodic sweep recomputes ledger entries from list lengths: they stay
non-negative. -/
theorem nonneg_periodic (s : EngineState) (h : CountersNonneg s) :
    CountersNonneg (performPeriodicCleanup s) := by
  unfold performPeriodicCleanup
  dsimp only
  split
  · split <;> exact ⟨le_refl 0, le_refl 0, le_refl 0⟩
  · split <;> exact ⟨Int.ofNat_nonneg _, Int.ofNat_nonneg _, h.2.2⟩

/-- `tryPlayWithRetry` does not touch the ledger. -/
theorem tryPlay_counters (eid : ℕ) (env : Env) (s : EngineState) :
    (tryPlayWithRetry eid env s).counters = s.counters := by
  unfold tryPlayWithRetry
  split
  · rfl
  · split
    · split
      · split <;> rfl
      · rfl
    · rfl

/-- One echo iteration only increments ledger entries. -/
theorem nonneg_echoIteration (d : AudioData) (env : Env) (id : String) (dm : ℚ)
    (s : EngineState) (i : ℕ) (h : CountersNonneg s) :
    CountersNonneg (echoIteration d env id dm s i) := by
  obtain ⟨h1, h2, h3⟩ := h
  unfold echoIteration
  by_cases hc : s.audioCtx = some CtxState.running <;>
    refine ⟨?_, ?_, ?_⟩ <;> simp [hc] <;> omega

/-- The echo path keeps the ledger non-negative. -/
theorem nonneg_playEchoPath (d : AudioData) (id : String) (env : Env) (s : EngineState)
    (h : CountersNonneg s) : CountersNonneg (playEchoPath d id env s) := by
  unfold playEchoPath
  exact foldl_inv CountersNonneg _ (fun t x ht => nonneg_echoIteration d env id _ t x ht) _ _ h

/-- The cached-default path keeps the ledger non-negative. -/
theorem nonneg_playMainPath (d : AudioData) (id : String) (env : Env) (s : EngineState)
    (h : CountersNonneg s) : CountersNonneg (playMainPath d id env s) := by
  obtain ⟨h1, h2, h3⟩ := h
  unfold playMainPath
  split <;>
  · refine ⟨?_, ?_, ?_⟩ <;>
      simp [tryPlay_counters, apply_ite EngineState.counters, EngineState.updateElem,
        apply_ite Counters.audioElements, apply_ite Counters.audioNodes,
        apply_ite Counters.objectUrls] <;>
      (try split) <;>
      omega

/-- `ensureAudioContext` does not touch the ledger. -/
theorem ensureCtx_counters (env : Env) (s : EngineState) :
    (ensureAudioContext env s).counters = s.counters := by
  unfold ensureAudioContext
  split <;>
  · dsimp only
    split <;> rfl

/-- The stop path does not touch the ledger. -/
theorem nonneg_playStopPath (s : EngineState) (id : String) (h : CountersNonneg s) :
    CountersNonneg (playStopPath s id) := by
  have := (playStopPath_fields s id).2.1
  unfold CountersNonneg
  rw [this]
  exact h

/-- `playAudio` keeps the ledger non-negative on every path. -/
theorem nonneg_playAudio (s : EngineState) (id : String) (env : Env)
    (h : CountersNonneg s) : CountersNonneg (playAudio s id env) := by
  unfold playAudio
  split
  · exact h
  · split
    · exact h
    · split
      · exact nonneg_playStopPath s id h
      · dsimp only
        split
        · exact nonneg_limit s id 8 h
        · have hl : CountersNonneg (ensureAudioContext env (limitAudioInstances s id 8)) := by
            unfold CountersNonneg
            rw [ensureCtx_counters]
            exact nonneg_limit s id 8 h
          split
          · exact nonneg_playEchoPath _ id env _ hl
          · exact nonneg_playMainPath _ id env _ hl

/-- The end-of-stream handlers only floor-decrement ledger entries. -/
theorem nonneg_fireEnded (s : EngineState) (eid : ℕ) (h : CountersNonneg s) :
    CountersNonneg (fireEnded s eid) := by
  unfold fireEnded
  split
  · exact h
  · -- echo handler
    rename_i id heq
    have hc := nonneg_cleanupAudioNodes s id eid h
    refine ⟨?_, ?_, le_max_left 0 _⟩ <;>
    · dsimp only
      repeat' split
      all_goals first
        | exact le_max_left 0 _
        | exact hc.1
        | exact hc.2.1
  · -- main handler
    rename_i id heq
    apply nonneg_cleanupAudioNodes
    refine ⟨?_, ?_, le_max_left 0 _⟩ <;>
    · dsimp only
      repeat' split
      all_goals first
        | exact h.1
        | exact h.2.1

/-- Firing a scheduled echo play does not touch the ledger. -/
theorem nonneg_firePendingPlay (s : EngineState) (eid : ℕ) (env : Env)
    (h : CountersNonneg s) : CountersNonneg (firePendingPlay s eid env) := by
  unfold firePendingPlay
  split
  · exact h
  · split <;> exact h

/-- `updateAudioData` does not touch the ledger. -/
theorem nonneg_updateAudioData (s : EngineState) (id : String) (p : PartialAudioData)
    (h : CountersNonneg s) : CountersNonneg (updateAudioData s id p) := by
  unfold updateAudioData
  split <;> exact h

/-- `importData` does not touch the ledger. -/
theorem nonneg_importData (s : EngineState) (f : ImportFile)
    (h : CountersNonneg s) : CountersNonneg (importData s f).1 := by
  unfold importData
  split
  · exact h
  · split
    · exact h
    · split
      · exact h
      · split
        · exact h
        · split <;> exact h

/-- C8: every engine operation preserves non-negativity of the resource
ledger (`audioElements`, `audioNodes`, `objectUrls`): decrements are floored
at zero, the periodic sweep recomputes from list lengths, and forced cleanup
resets to zero. -/
theorem stepOp_counters_nonneg (s : EngineState) (op : EngineOp)
    (h : CountersNonneg s) : CountersNonneg (stepOp s op) := by
  cases op with
  | play id env => exact nonneg_playAudio s id env h
  | ended eid => exact nonneg_fireEnded s eid h
  | pendingPlay eid env => exact nonneg_firePendingPlay s eid env h
  | periodic => exact nonneg_periodic s h
  | force => exact nonneg_forceCleanup s
  | update id p => exact nonneg_updateAudioData s id p h
  | importOp f => exact nonneg_importData s f h

/-- C8, witness: one periodic sweep from the initial state keeps the ledger
non-negative. -/
theorem stepOp_counters_nonneg_witness :
    CountersNonneg (stepOp emptyEngine EngineOp.periodic) :=
  stepOp_counters_nonneg emptyEngine EngineOp.periodic
    (by with_unfolding_all exact ⟨le_refl 0, le_refl 0, le_refl 0⟩)

/-! ### PCM container lemmas (C7) -/

/-- Every 16-bit write is two bytes. -/
theorem i16le_length (v : ℤ) : (i16le v).length = 2 := rfl

/-- Length of a flat map with constant chunk length. -/
theorem length_flatMap_const {α β : Type} (l : List α) (f : α → List β) (L : ℕ)
    (h : ∀ a, (f a).length = L) : (l.flatMap f).length = l.length * L := by
  induction l with
  | nil => simp
  | cons x xs ih =>
    rw [List.flatMap_cons, List.length_append, h, ih, List.length_cons]
    ring

/-- Dropping `i` whole chunks from a flat map over `range'` skips its first
`i` indices. -/
theorem flatMap_drop {β : Type} (f : ℕ → List β) (L : ℕ) (hf : ∀ j, (f j).length = L) :
    ∀ (i n s : ℕ), i ≤ n →
      ((List.range' s n).flatMap f).drop (i * L) = (List.range' (s + i) (n - i)).flatMap f := by
  intro i
  induction i with
  | zero => intro n s _; simp
  | succ i ih =>
    intro n s hin
    obtain ⟨m, rfl⟩ : ∃ m, n = m + 1 := ⟨n - 1, by omega⟩
    rw [List.range'_succ, List.flatMap_cons,
      show (i + 1) * L = L + i * L by ring,
      ← List.drop_drop, List.drop_left' (hf s), ih m (s + 1) (by omega),
      show s + 1 + i = s + (i + 1) by omega,
      show m - i = m + 1 - (i + 1) by omega]

/-- Little-endian byte decomposition of a 16-bit value. -/
theorem u16_bytes_eq (v : ℕ) (h : v < 65536) :
    v % 256 + 256 * (v / 256 % 256) = v := by omega

/-- Little-endian byte decomposition of a 32-bit value. -/
theorem u32_bytes_eq (v : ℕ) (h : v < 4294967296) :
    v % 256 + 256 * (v / 256 % 256 + 256 * (v / 65536 % 256 + 256 * (v / 16777216 % 256))) =
      v := by omega

/-- The byte sequence past the 44-byte header is the interleaved sample
data. -/
theorem bufferToWav_data (b : AudioBuffer) :
    (bufferToWav b).drop 44 =
      (List.range b.frameCount).flatMap (fun i =>
        (List.range b.numberOfChannels).flatMap (fun channel =>
          i16le (pcm16OfSample (b.sampleAt channel i)))) := rfl

/-- The encoded stream at the sample offset starts with that sample's two
bytes. -/
theorem bufferToWav_drop_sample (b : AudioBuffer) (i ch : ℕ)
    (hi : i < b.frameCount) (hch : ch < b.numberOfChannels) :
    ∃ rest, (bufferToWav b).drop (44 + 2 * (i * b.numberOfChannels + ch)) =
      i16le (pcm16OfSample (b.sampleAt ch i)) ++ rest := by
  have hF : ∀ j, ((List.range b.numberOfChannels).flatMap (fun channel =>
      i16le (pcm16OfSample (b.sampleAt channel j)))).length = b.numberOfChannels * 2 := by
    intro j
    rw [length_flatMap_const (List.range b.numberOfChannels)
        (fun channel => i16le (pcm16OfSample (b.sampleAt channel j))) 2
        (fun a => i16le_length _),
      List.length_range]
  rw [← List.drop_drop, bufferToWav_data,
    show 2 * (i * b.numberOfChannels + ch) = i * (b.numberOfChannels * 2) + ch * 2 by ring,
    ← List.drop_drop, List.range_eq_range',
    flatMap_drop _ (b.numberOfChannels * 2) hF i b.frameCount 0 (le_of_lt hi)]
  obtain ⟨m, hm⟩ : ∃ m, b.frameCount - i = m + 1 := ⟨b.frameCount - i - 1, by omega⟩
  rw [hm, List.range'_succ, List.flatMap_cons,
    List.drop_append_of_le_length (by rw [hF]; omega)]
  simp only [Nat.zero_add]
  rw [List.range_eq_range',
    flatMap_drop (fun channel => i16le (pcm16OfSample (b.sampleAt channel i))) 2
      (fun j => i16le_length _) ch b.numberOfChannels 0 (le_of_lt hch)]
  obtain ⟨mc, hmc⟩ : ∃ mc, b.numberOfChannels - ch = mc + 1 := ⟨b.numberOfChannels - ch - 1, by omega⟩
  rw [hmc, List.range'_succ, List.flatMap_cons]
  simp only [Nat.zero_add]
  exact ⟨_, by rw [List.append_assoc]⟩

/-- Reading back a stored 16-bit two's-complement value recovers it. -/
theorem readI16LE_of_drop (bytes : List ℕ) (off : ℕ) (v : ℤ) (rest : List ℕ)
    (hd : bytes.drop off = i16le v ++ rest) (h1 : -32768 ≤ v) (h2 : v < 32768) :
    readI16LE bytes off = v := by
  unfold readI16LE readU16LE
  rw [hd]
  simp only [i16le, u16le, List.cons_append, List.nil_append]
  split <;> omega

/-- The clamped, scaled, truncated sample value fits in a signed 16-bit
word. -/
theorem pcm16_bounds (q : ℚ) :
    -32768 ≤ pcm16OfSample q ∧ pcm16OfSample q < 32768 := by
  unfold pcm16OfSample jsTrunc
  have hub : max (-1) (min 1 q) * 32767 ≤ 32767 := by
    have h1 : max (-1 : ℚ) (min 1 q) ≤ 1 := max_le (by norm_num) (min_le_left _ _)
    nlinarith
  have hlb : (-32767 : ℚ) ≤ max (-1) (min 1 q) * 32767 := by
    have h1 : (-1 : ℚ) ≤ max (-1) (min 1 q) := le_max_left _ _
    nlinarith
  split
  · rename_i h0
    have hf0 : (0 : ℤ) ≤ ⌊max (-1) (min 1 q) * 32767⌋ := Int.floor_nonneg.mpr h0
    have hf1 : ⌊max (-1) (min 1 q) * 32767⌋ ≤ 32767 := by
      have := Int.floor_le_floor hub
      simpa using this
    omega
  · rename_i h0
    have hf0 : (0 : ℤ) ≤ ⌊-(max (-1) (min 1 q) * 32767)⌋ :=
      Int.floor_nonneg.mpr (by linarith [not_le.mp h0])
    have hf1 : ⌊-(max (-1) (min 1 q) * 32767)⌋ ≤ 32767 := by
      have hle : -(max (-1) (min 1 q) * 32767) ≤ (32767 : ℚ) := by linarith
      have := Int.floor_le_floor hle
      simpa using this
    omega

set_option maxHeartbeats 1600000 in
/-- C7: the PCM encoder writes `44 + frames*channels*2` bytes; the 44-byte
header stores, little-endian, the channel count (offset 22), sample rate
(24), byte rate `rate*channels*2` (28), block align `channels*2` (32), bit
depth 16 (34) and data length `frames*channels*2` (40); and the data section
holds the interleaved 16-bit samples, each float sample clamped to `[-1, 1]`,
scaled by 32767 and truncated. -/
theorem bufferToWav_container (b : AudioBuffer)
    (hc : b.numberOfChannels < 65536)
    (hc2 : b.numberOfChannels * 2 < 65536)
    (hr : b.sampleRate < 4294967296)
    (hbr : b.sampleRate * b.numberOfChannels * 2 < 4294967296)
    (hdl : b.frameCount * b.numberOfChannels * 2 < 4294967296) :
    (bufferToWav b).length = 44 + b.frameCount * b.numberOfChannels * 2 ∧
    readU16LE (bufferToWav b) 22 = b.numberOfChannels ∧
    readU32LE (bufferToWav b) 24 = b.sampleRate ∧
    readU32LE (bufferToWav b) 28 = b.sampleRate * b.numberOfChannels * 2 ∧
    readU16LE (bufferToWav b) 32 = b.numberOfChannels * 2 ∧
    readU16LE (bufferToWav b) 34 = 16 ∧
    readU32LE (bufferToWav b) 40 = b.frameCount * b.numberOfChannels * 2 ∧
    (∀ i ch, i < b.frameCount → ch < b.numberOfChannels →
      readI16LE (bufferToWav b) (44 + 2 * (i * b.numberOfChannels + ch)) =
        pcm16OfSample (b.sampleAt ch i)) := by
  refine ⟨?_, u16_bytes_eq _ hc, u32_bytes_eq _ hr, u32_bytes_eq _ hbr,
    u16_bytes_eq _ hc2, rfl, u32_bytes_eq _ hdl, ?_⟩
  · -- length
    have hlen : ((List.range b.frameCount).flatMap (fun i =>
        (List.range b.numberOfChannels).flatMap (fun channel =>
          i16le (pcm16OfSample (b.sampleAt channel i))))).length =
        b.frameCount * (b.numberOfChannels * 2) := by
      rw [length_flatMap_const (List.range b.frameCount)
          (fun i => (List.range b.numberOfChannels).flatMap (fun channel =>
            i16le (pcm16OfSample (b.sampleAt channel i))))
          (b.numberOfChannels * 2)
          (fun j => by
            rw [length_flatMap_const (List.range b.numberOfChannels)
                (fun channel => i16le (pcm16OfSample (b.sampleAt channel j))) 2
                (fun a => i16le_length _),
              List.length_range]),
        List.length_range]
    simp only [bufferToWav, List.length_append, u16le, u32le, List.length_cons,
      List.length_nil, hlen]
    ring
  · intro i ch hi hch
    obtain ⟨rest, hdrop⟩ := bufferToWav_drop_sample b i ch hi hch
    exact readI16LE_of_drop _ _ _ rest hdrop (pcm16_bounds _).1 (pcm16_bounds _).2

/-- C7, witness: a concrete 2-frame stereo buffer at 8 kHz — header fields
and the stored samples decode as specified. -/
theorem bufferToWav_container_witness :
    readI16LE (bufferToWav { channels := [[1/2, -1/2], [0, 2]], sampleRate := 8000 })
        (44 + 2 * (1 * 2 + 0)) =
      pcm16OfSample ((AudioBuffer.mk [[1/2, -1/2], [0, 2]] 8000).sampleAt 0 1) :=
  (bufferToWav_container { channels := [[1/2, -1/2], [0, 2]], sampleRate := 8000 }
      (by decide) (by decide) (by decide) (by decide) (by decide)).2.2.2.2.2.2.2
    1 0 (by decide) (by decide)

end SoundPad
